import Mathlib

/-!
Verification of the DocuPR classification-and-aggregation pipeline.

This file gives a shallow embedding, in Lean 4, of the core components of the
DocuPR code base (src/openai_analyzer.py, src/config.py, src/cli.py,
src/github_client.py, src/report_generator.py) and proves properties of the
embedded definitions.

Modelling conventions:
* Python strings are modelled as `List Char` (sequences of code points).
* Python dynamic values produced by `json.loads` are modelled by the inductive
  type `PyVal`; Python exceptions by `PyErr`, and fallible Python code by
  `Except PyErr`.
* `json.loads` itself is an external library routine; it is modelled as an
  abstract parameter `loads : List Char → Option PyVal` (`Option.none` stands
  for `json.JSONDecodeError`).  The repository code under test is translated
  concretely.
* External network collaborators (the OpenAI chat endpoint, the GitHub API)
  are modelled as parameters describing their observable behaviour
  (a returned value or a raised exception).
* `datetime` timestamps are modelled as `Int` seconds where only arithmetic
  matters (release-boundary resolution), and as a calendar record
  `PyDateTime` where `.date()` extraction matters (merged-PR filtering).
* `time.time()` readings are modelled as exact rationals `ℚ`.
-/

namespace DocuPR

/-! ### Python string primitives (on `List Char`) -/

/-- Test whether `pat` occurs at the very start of `s`
(the prefix test used by substring search). -/
def beginsWith : List Char → List Char → Bool
  | [], _ => true
  | _ :: _, [] => false
  | p :: ps, c :: cs => p == c && beginsWith ps cs

/-- Index of the first occurrence of `pat` in `s`, if any.
`Option` analogue of Python `str.find`. -/
def findSub (pat : List Char) : List Char → Option Nat
  | [] => if beginsWith pat [] then some 0 else none
  | c :: t =>
    if beginsWith pat (c :: t) then some 0
    else (findSub pat t).map (· + 1)

/-- Python `s.find(pat)`: first index of `pat` in `s`, `-1` when absent. -/
def pyFind (s pat : List Char) : Int :=
  match findSub pat s with
  | some n => (n : Int)
  | none => -1

/-- Python `s.find(pat, start)`: first index `≥ start` of `pat` in `s`,
`-1` when absent (used with `start ≥ 0` only, as in the source). -/
def pyFindFrom (s pat : List Char) (start : Int) : Int :=
  match findSub pat (s.drop start.toNat) with
  | some n => start + (n : Int)
  | none => -1

/-- Python `s.rfind(c)` for a single-character pattern: index of the last
occurrence of `c` in `s`, `-1` when absent. -/
def pyRFindChar (s : List Char) (c : Char) : Int :=
  match findSub [c] s.reverse with
  | some n => (s.length : Int) - 1 - (n : Int)
  | none => -1

/-- Python substring containment `pat in s`. -/
def containsSub (s pat : List Char) : Bool :=
  (findSub pat s).isSome

/-- Python slice `s[a:b]` for `0 ≤ a ≤ b` (the only way the source uses it). -/
def pySlice (s : List Char) (a b : Int) : List Char :=
  (s.drop a.toNat).take (b - a).toNat

/-- Python `str.strip()`: drop leading and trailing whitespace. -/
def pyStrip (s : List Char) : List Char :=
  ((s.dropWhile Char.isWhitespace).reverse.dropWhile Char.isWhitespace).reverse

/-- Python `str.lower()` (code-point-wise lowercasing). -/
def pyLower (s : List Char) : List Char :=
  s.map Char.toLower

/-- Python `content.split(". ")` — the only split the analyzer performs —
specialised to the two-character separator `". "`: splits at every
non-overlapping leftmost occurrence, keeping empty pieces. -/
def splitDotSpace : List Char → List (List Char)
  | [] => [[]]
  | '.' :: ' ' :: rest => [] :: splitDotSpace rest
  | c :: rest =>
    match splitDotSpace rest with
    | [] => [[c]]
    | s :: ss => (c :: s) :: ss

/-! ### Python dynamic values and exceptions -/

/-- Dynamic values as produced by `json.loads` (JSON object keys are
strings, so dict keys are `List Char`). -/
inductive PyVal where
  | none
  | bool (b : Bool)
  | int (n : Int)
  | str (s : List Char)
  | list (xs : List PyVal)
  | dict (entries : List (List Char × PyVal))

/-- Python exceptions surfaced by the analyzer, each carrying its `str(e)`
message. -/
inductive PyErr where
  | typeError (msg : List Char)
  | keyError (msg : List Char)
  | attributeError (msg : List Char)
  | other (msg : List Char)
deriving Repr, DecidableEq

/-- Python `str(e)` for a modelled exception. -/
def PyErr.message : PyErr → List Char
  | .typeError m => m
  | .keyError m => m
  | .attributeError m => m
  | .other m => m

/-- Python `v[k]` for a string key `k`: dict lookup (`KeyError` when the key
is absent), `TypeError` on lists (string index), strings and everything
else. -/
def pyGetItem (v : PyVal) (k : List Char) : Except PyErr PyVal :=
  match v with
  | .dict es =>
    match List.lookup k es with
    | some x => .ok x
    | Option.none => .error (.keyError k)
  | .list _ => .error (.typeError "list indices must be integers".data)
  | .str _ => .error (.typeError "string indices must be integers".data)
  | _ => .error (.typeError "object is not subscriptable".data)

/-- Replace the value at key `k` in an association list, keeping its
position, or append the binding at the end (Python dict assignment). -/
def setEntry : List (List Char × PyVal) → List Char → PyVal → List (List Char × PyVal)
  | [], k, v => [(k, v)]
  | (k', v') :: rest, k, v =>
    if k' = k then (k, v) :: rest else (k', v') :: setEntry rest k v

/-- Python `v[k] = x` for a string key: succeeds on dicts, raises
`TypeError` otherwise. -/
def pySetItem (v : PyVal) (k : List Char) (x : PyVal) : Except PyErr PyVal :=
  match v with
  | .dict es => .ok (.dict (setEntry es k x))
  | .list _ => .error (.typeError "list indices must be integers".data)
  | _ => .error (.typeError "object does not support item assignment".data)

/-- Python string equality `v == s` between a dynamic value and a string
literal: true exactly for an equal string (comparisons across types are
`False`, never an error). -/
def pyEqStr (v : PyVal) (s : List Char) : Bool :=
  match v with
  | .str t => t = s
  | _ => false

/-- Python membership `k in v` for a string `k`: key test on dicts, element
test on lists, substring test on strings, `TypeError` on non-containers. -/
def pyContains (v : PyVal) (k : List Char) : Except PyErr Bool :=
  match v with
  | .dict es => .ok (es.any (fun e => e.1 = k))
  | .list xs => .ok (xs.any (fun x => pyEqStr x k))
  | .str s => .ok (containsSub s k)
  | _ => .error (.typeError "argument of type is not iterable".data)

/-! ### `OpenAIAnalyzer._parse_openai_response` (src/openai_analyzer.py 96-206)

The tiers of the source, in order: (1) `json.loads` on the stripped content;
(2) if the text contains a ```` ```json ```` fence, `json.loads` on the
fenced content; (3/4) `json.loads` on the first-`{`-to-last-`}` substring
(the source spells this block out twice, once as the fallback of the fence
branch and once for fence-less input; both blocks are textually identical
and are shared here); on failure of everything, a fixed default dict.
Afterwards the salvage scan of lines 194-204 runs on the result. -/

/-- The fixed default dict built when every extraction attempt fails
(lines 139-147, 151-159, 172-180 and 184-192 of the source, all identical). -/
def default_result : PyVal :=
  .dict [("user_facing".data, .bool true),
         ("docs_impact".data,
           .dict [("update_existing".data, .list []),
                  ("create_new".data, .list []),
                  ("suggested_content".data, .list [])]),
         ("reasoning".data, .str "Extracted from non-JSON response".data)]

/-- The fence opener `"```json"` (written with escapes). -/
def jsonFence : List Char := "\x60\x60\x60json".data

/-- The plain fence `"```"`. -/
def fenceMark : List Char := "\x60\x60\x60".data

/-- The substring handed to `json.loads` by the fence tier (lines 117-126):
present exactly when the text contains a ```` ```json ```` fence whose
extraction indices pass the `start > 6 and end > start` check of the
source; the extracted text is stripped as in the source. -/
def fenced_candidate (content : List Char) : Option (List Char) :=
  if containsSub content jsonFence && containsSub content fenceMark then
    let start := pyFind content jsonFence + 7
    let stop := pyFindFrom content fenceMark start
    if 6 < start ∧ start < stop then some (pyStrip (pySlice content start stop))
    else Option.none
  else Option.none

/-- The substring handed to `json.loads` by the brace tier (lines 129-133
and 162-166): from the first `{` to the last `}`, present exactly when
`start_idx >= 0 and end_idx > start_idx`. -/
def brace_candidate (content : List Char) : Option (List Char) :=
  let start_idx := pyFind content ['\x7b']
  let end_idx := pyRFindChar content '\x7d'
  if 0 ≤ start_idx ∧ start_idx < end_idx then
    some (pySlice content start_idx (end_idx + 1))
  else Option.none

/-- The shared brace tier: parse the brace candidate, else the fixed
default (lines 129-159 / 161-192). -/
def brace_parse (loads : List Char → Option PyVal) (content : List Char) : PyVal :=
  match brace_candidate content with
  | some c => (loads c).getD default_result
  | Option.none => default_result

/-- The tiered extraction of lines 110-192, before the salvage scan:
direct parse, then the fence tier (whose `JSONDecodeError`s all land in the
brace tier), then the brace tier. -/
def tier_parse (loads : List Char → Option PyVal) (content : List Char) : PyVal :=
  match loads content with
  | some r => r
  | Option.none =>
    match fenced_candidate content with
    | some c =>
      match loads c with
      | some r => r
      | Option.none => brace_parse loads content
    | Option.none => brace_parse loads content

/-- The per-sentence body of the salvage loop (lines 200-204): on a
sentence containing "documentation" (case-insensitively), ensure
`result["docs_impact"]["suggested_content"]` exists and append the stripped
sentence to it; Python's in-place mutation of the nested dict is modelled
by functional write-back. -/
def salvage_sentence (res : PyVal) (sentence : List Char) : Except PyErr PyVal :=
  if containsSub (pyLower sentence) "documentation".data then do
    let di ← pyGetItem res "docs_impact".data
    let has ← pyContains di "suggested_content".data
    let res2 ←
      if has then pure res
      else do
        let di0 ← pyGetItem res "docs_impact".data
        let di1 ← pySetItem di0 "suggested_content".data (.list [])
        pySetItem res "docs_impact".data di1
    let di2 ← pyGetItem res2 "docs_impact".data
    let sc ← pyGetItem di2 "suggested_content".data
    match sc with
    | .list xs => do
      let di3 ← pySetItem di2 "suggested_content".data
        (.list (xs ++ [.str (pyStrip sentence)]))
      pySetItem res2 "docs_impact".data di3
    | _ => .error (.attributeError "object has no attribute append".data)
  else pure res

/-- The salvage scan of lines 194-204: when the result carries the
`"Extracted from non-JSON response"` marker, scan the content for
sentences (split on `". "`) mentioning "documentation" and append them.
Note Python evaluation order: `"reasoning" in result` is evaluated first
and may itself raise `TypeError` on non-container results. -/
def salvage_scan (content : List Char) (result : PyVal) : Except PyErr PyVal := do
  let hasR ← pyContains result "reasoning".data
  let isMarker ←
    if hasR then do
      let r ← pyGetItem result "reasoning".data
      pure (pyEqStr r "Extracted from non-JSON response".data)
    else pure false
  if isMarker then
    if containsSub (pyLower content) "documentation".data then
      (splitDotSpace content).foldlM salvage_sentence result
    else pure result
  else pure result

/-- `OpenAIAnalyzer._parse_openai_response` (lines 96-206): strip the raw
text, run the tiered extraction, then the salvage scan.  `loads` is the
external `json.loads`. -/
def parse_openai_response (loads : List Char → Option PyVal) (raw : List Char) :
    Except PyErr PyVal :=
  let content := pyStrip raw
  salvage_scan content (tier_parse loads content)

/-! ### `OpenAIAnalyzer.analyze_pr` (src/openai_analyzer.py 208-298)

The source awaits `self._rate_limit()` (line 219) and builds the prompt
strings (lines 222-268) BEFORE the `try:` of line 270; only the OpenAI
call, the response parsing and the metadata attachment (lines 270-282) are
inside it.  The prompt construction is pure string formatting over the
fields of a well-formed detail record and cannot raise; it is not
modelled.  The behaviour of the rate limiter and of the external endpoint
for this one call are passed in as `Except` values. -/

/-- `GitHubClient.get_pr_details`' result shape: the PR detail dict
consumed by `analyze_pr` (src/github_client.py 240-249). -/
structure PRDetails where
  number : Int
  title : List Char
  body : List Char
  url : List Char
  author : List Char
  merged_at : Option (List Char)
  diff : List Char
  changed_files : List (List Char)

/-- The error dict returned by the `except` arm of `analyze_pr`
(lines 286-298). -/
def error_result (pr : PRDetails) (msg : List Char) : PyVal :=
  .dict [("pr_number".data, .int pr.number),
         ("pr_title".data, .str pr.title),
         ("pr_url".data, .str pr.url),
         ("user_facing".data, .bool false),
         ("docs_impact".data,
           .dict [("update_existing".data, .list []),
                  ("create_new".data, .list []),
                  ("suggested_content".data, .list [])]),
         ("reasoning".data, .str ("Error: ".data ++ msg)),
         ("error".data, .str msg)]

/-- The body of the `try:` block of `analyze_pr` (lines 270-282): obtain
the response text, parse it, attach the PR metadata. -/
def analyze_pr_body (get_response : Except PyErr (List Char))
    (loads : List Char → Option PyVal) (pr : PRDetails) : Except PyErr PyVal := do
  let content ← get_response
  let result ← parse_openai_response loads content
  let r1 ← pySetItem result "pr_number".data (.int pr.number)
  let r2 ← pySetItem r1 "pr_title".data (.str pr.title)
  let r3 ← pySetItem r2 "pr_url".data (.str pr.url)
  pure r3

/-- `OpenAIAnalyzer.analyze_pr` (lines 208-298): the rate limiter runs
outside the `try:`; the `try:` body's exceptions become the error dict. -/
def analyze_pr (rate_limit_result : Except PyErr Unit)
    (get_response : Except PyErr (List Char))
    (loads : List Char → Option PyVal) (pr : PRDetails) : Except PyErr PyVal := do
  let _ ← rate_limit_result
  match analyze_pr_body get_response loads pr with
  | .ok v => pure v
  | .error e => pure (error_result pr e.message)

/-! ### `get_openai_config` and `OpenAIAnalyzer.__init__`
(src/config.py 47-59, src/openai_analyzer.py 23-50) -/

/-- `get_openai_config` (src/config.py 47-59): a dict with exactly the four
keys `api_key`, `model`, `max_tokens`, `temperature`.  The values read and
converted from the environment are passed in already computed; the key set
does not depend on the environment. -/
def get_openai_config (api_key model_value max_tokens temperature : PyVal) :
    List (List Char × PyVal) :=
  [("api_key".data, api_key),
   ("model".data, model_value),
   ("max_tokens".data, max_tokens),
   ("temperature".data, temperature)]

/-- Python `config[k]`: lookup raising `KeyError` on a missing key. -/
def configGetItem (cfg : List (List Char × PyVal)) (k : List Char) :
    Except PyErr PyVal :=
  match List.lookup k cfg with
  | some v => .ok v
  | Option.none => .error (.keyError k)

/-- The attribute state `OpenAIAnalyzer.__init__` would build
(src/openai_analyzer.py 35-50). -/
structure AnalyzerState where
  api_key : PyVal
  base_url : PyVal
  model : PyVal
  max_tokens : PyVal
  temperature : PyVal
  extra_instructions : PyVal
  request_count : Nat
  last_request_time : ℚ
  rate_limit_per_minute : Nat

/-- `OpenAIAnalyzer.__init__` (lines 23-50).  The `OpenAI(...)` client
constructor's arguments are evaluated left to right — `config["api_key"]`
then `config["base_url"]` — before the client object (the only
network-capable object) exists; then `model`, `max_tokens`, `temperature`
and `extra_instructions` are read, and the rate-limiter counters are
initialised to `0, 0, 20`. -/
def openai_analyzer_init (cfg : List (List Char × PyVal)) :
    Except PyErr AnalyzerState := do
  let api_key ← configGetItem cfg "api_key".data
  let base_url ← configGetItem cfg "base_url".data
  let model ← configGetItem cfg "model".data
  let max_tokens ← configGetItem cfg "max_tokens".data
  let temperature ← configGetItem cfg "temperature".data
  let extra ← configGetItem cfg "extra_instructions".data
  pure ⟨api_key, base_url, model, max_tokens, temperature, extra, 0, 0, 20⟩

/-! ### Boundary resolution
(src/cli.py 74-90, src/github_client.py 106-140)

Timestamps are `Int` seconds; `timedelta(days=30)` is exactly `2592000`
seconds.  The GitHub collaborator is a record of behaviours:
`get_release tag` yields the tagged release's creation time or raises, and
`get_releases` yields the release list (newest first, as the GitHub API
returns it) or raises. -/

/-- Observable behaviour of the GitHub release endpoints for one repo. -/
structure GitHubRepo where
  get_release : List Char → Except (List Char) Int
  get_releases : Except (List Char) (List Int)

/-- `GitHubClient.get_release_date` (src/github_client.py 106-140): with a
tag, try that release and on ANY failure fall back to the latest release;
then the latest release's creation time if any releases exist, else
`None`; a failure fetching the release list is caught by the outer
`except` and also yields `None`. -/
def get_release_date (repo : GitHubRepo) (tag : Option (List Char)) : Option Int :=
  let latest : Option Int :=
    match repo.get_releases with
    | .ok [] => Option.none
    | .ok (d :: _) => some d
    | .error _ => Option.none
  match tag with
  | some t =>
    match repo.get_release t with
    | .ok d => some d
    | .error _ => latest
  | Option.none => latest

/-- The boundary-resolution logic of `analyze_repository`
(src/cli.py 74-90): an explicit `--since` date is used as is; otherwise
`get_release_date`, and if that is `None`, `datetime.now() -
timedelta(days=30)`. -/
def resolve_since (since_date : Option Int) (release_tag : Option (List Char))
    (repo : GitHubRepo) (now : Int) : Int :=
  match since_date with
  | some d => d
  | Option.none =>
    match get_release_date repo release_tag with
    | some d => d
    | Option.none => now - 30 * 86400

/-! ### `OpenAIAnalyzer._rate_limit` (src/openai_analyzer.py 52-71)

The mutable pair `(request_count, last_request_time)` is explicit state;
`time.time()` is an injected clock, read once at entry (`t_in`) and once
at exit for the stamp (`t_out`).  The returned rational is the duration
passed to `time.sleep` (`0` when no sleep happens). -/

/-- The analyzer's rate-limiter state. -/
structure RateLimiterState where
  request_count : Nat
  last_request_time : ℚ
deriving Repr, DecidableEq

/-- One call of `_rate_limit` with per-minute budget `limit`: sleep
duration and new state.  Branches as in the source: if inside the window
and at the budget, sleep the remaining window and reset; else if the
window has elapsed, reset; then increment and stamp. -/
def rate_limit_step (limit : Nat) (st : RateLimiterState) (t_in t_out : ℚ) :
    ℚ × RateLimiterState :=
  let time_since := t_in - st.last_request_time
  if time_since < 60 ∧ limit ≤ st.request_count then
    (60 - time_since, ⟨0 + 1, t_out⟩)
  else if 60 ≤ time_since then
    (0, ⟨0 + 1, t_out⟩)
  else
    (0, ⟨st.request_count + 1, t_out⟩)

/-! ### `GitHubClient.get_prs_since_date` (src/github_client.py 142-200)

`datetime.date()` extraction and `date >= date` comparison are what the
claim is about, so timestamps here are calendar records; Python compares
`date` objects lexicographically on `(year, month, day)`. -/

/-- A `datetime.date` value. -/
structure PyDate where
  year : Int
  month : Nat
  day : Nat
deriving Repr, DecidableEq

/-- A `datetime.datetime` value (timezone-naive, as the source uses). -/
structure PyDateTime where
  year : Int
  month : Nat
  day : Nat
  hour : Nat
  minute : Nat
  second : Nat
deriving Repr, DecidableEq

/-- Python `datetime.date()` — drop the time-of-day. -/
def PyDateTime.date (dt : PyDateTime) : PyDate :=
  ⟨dt.year, dt.month, dt.day⟩

/-- Python `date <= date`: lexicographic on `(year, month, day)`. -/
def PyDate.leb (a b : PyDate) : Bool :=
  if a.year < b.year then true
  else if b.year < a.year then false
  else if a.month < b.month then true
  else if b.month < a.month then false
  else a.day ≤ b.day

/-- A pull request as observed by the listing loop: its number, whether it
is merged, and its merge timestamp (`None` for unmerged ones). -/
structure PullRequestRec where
  number : Int
  merged : Bool
  merged_at : Option PyDateTime
deriving Repr, DecidableEq

/-- The per-item test of the listing loop (lines 189-195): merged, with a
merge timestamp, and `pr.merged_at.date() >= since_date.date()` — the
date-only comparison. -/
def pr_included (since_date : PyDateTime) (pr : PullRequestRec) : Bool :=
  pr.merged &&
    match pr.merged_at with
    | some m => PyDate.leb since_date.date m.date
    | Option.none => false

/-- The collection loop of `get_prs_since_date` (lines 179-197) over the
search results: stop at the 100-item cap, append each included PR and
count it. -/
def collect_prs (since_date : PyDateTime) :
    List PullRequestRec → Nat → List PullRequestRec
  | [], _ => []
  | pr :: rest, count =>
    if 100 ≤ count then []
    else if pr_included since_date pr then
      pr :: collect_prs since_date rest (count + 1)
    else collect_prs since_date rest count

/-- `GitHubClient.get_prs_since_date`'s local filtering (lines 179-200),
given the platform's search results. -/
def get_prs_since_date (search_results : List PullRequestRec)
    (since_date : PyDateTime) : List PullRequestRec :=
  collect_prs since_date search_results 0

/-! ### `ReportGenerator` (src/report_generator.py)

The aggregation consumes per-PR verdicts.  The spec's `AnnotatedVerdict`
value (well-formed analysis dicts; `dict.get` with its defaults becomes
plain field access) is a record.  The markdown report is modelled as the
sequence of `f.write` calls, each a `ReportLine` carrying the data
interpolated into it. -/

/-- The spec's `DocsImpact`: three string lists. -/
structure DocsImpactRec where
  update_existing : List (List Char)
  create_new : List (List Char)
  suggested_content : List (List Char)
deriving Repr, DecidableEq

/-- The spec's `AnnotatedVerdict`: a verdict plus PR metadata. -/
structure AnnotatedVerdictRec where
  pr_number : Int
  pr_title : List Char
  pr_url : List Char
  user_facing : Bool
  docs_impact : DocsImpactRec
  reasoning : List Char
deriving Repr, DecidableEq

/-- The `all_updates` accumulator of `generate_report` (lines 79-83):
`update_existing` and `create_new` model Python sets (insertion keeps one
copy of each element; enumeration happens through `sorted(...)` only),
`suggested_content` the `{pr, content}` list. -/
structure AllUpdates where
  update_existing : List (List Char)
  create_new : List (List Char)
  suggested_content : List (Int × List Char)

/-- Python `set.add`: keep the element set, one copy each. -/
def set_add (s : List (List Char)) (x : List Char) : List (List Char) :=
  if x ∈ s then s else s ++ [x]

/-- The collection loop of lines 85-98 over the user-facing PRs. -/
def collect_all_updates (prs : List AnnotatedVerdictRec) : AllUpdates :=
  prs.foldl
    (fun acc pr =>
      { update_existing := pr.docs_impact.update_existing.foldl set_add acc.update_existing
        create_new := pr.docs_impact.create_new.foldl set_add acc.create_new
        suggested_content := acc.suggested_content ++
          pr.docs_impact.suggested_content.map (fun s => (pr.pr_number, s)) })
    ⟨[], [], []⟩

/-- Python `sorted(...)` on strings: stable sort by the lexicographic
code-point order (the `≤` of `List Char`). -/
def py_sorted (l : List (List Char)) : List (List Char) :=
  List.insertionSort (· ≤ ·) l

/-- The enumeration sequence of the "Existing Documentation to Update"
union section (line 103): `sorted(all_updates["update_existing"])` over
the user-facing items. -/
def report_update_existing (results : List AnnotatedVerdictRec) : List (List Char) :=
  py_sorted (collect_all_updates (results.filter (·.user_facing))).update_existing

/-- The enumeration sequence of the "New Documentation to Create" union
section (line 110): `sorted(all_updates["create_new"])`. -/
def report_create_new (results : List AnnotatedVerdictRec) : List (List Char) :=
  py_sorted (collect_all_updates (results.filter (·.user_facing))).create_new

/-- The "Suggested Content Updates" sequence (lines 115-119): the
`suggested_content` pairs in collection order, unsorted and undeduplicated. -/
def report_suggestions (results : List AnnotatedVerdictRec) : List (Int × List Char) :=
  (collect_all_updates (results.filter (·.user_facing))).suggested_content

/-- One `f.write` call of the markdown report, carrying the data
interpolated into the written text. -/
inductive ReportLine where
  | title (repo_url : List Char)
  | generatedOn
  | analyzingSince
  | summaryHeader
  | totalAnalyzed (n : Nat)
  | userFacingCount (n : Nat)
  | noChanges
  | docsUpdatesHeader
  | updateExistingHeader
  | createNewHeader
  | docItem (doc : List Char)
  | suggestedHeader
  | suggestionItem (pr : Int) (content : List Char)
  | detailHeader
  | prHeader (n : Int) (t : List Char)
  | prUrl (u : List Char)
  | prUserFacing
  | prReasoning (r : List Char)
  | prUpdateHeader
  | prCreateHeader
  | prSuggestHeader
  | prDocItem (d : List Char)
  | prSuggestItem (s : List Char)
deriving Repr, DecidableEq

/-- The per-PR detail block of lines 124-150 (`"reasoning" in pr` always
holds for a well-formed verdict record; the three sub-sections are emitted
only when their list is non-empty, i.e. truthy). -/
def pr_detail_lines (pr : AnnotatedVerdictRec) : List ReportLine :=
  [.prHeader pr.pr_number pr.pr_title, .prUrl pr.pr_url, .prUserFacing,
   .prReasoning pr.reasoning] ++
  (if pr.docs_impact.update_existing.isEmpty then []
   else .prUpdateHeader :: pr.docs_impact.update_existing.map .prDocItem) ++
  (if pr.docs_impact.create_new.isEmpty then []
   else .prCreateHeader :: pr.docs_impact.create_new.map .prDocItem) ++
  (if pr.docs_impact.suggested_content.isEmpty then []
   else .prSuggestHeader :: pr.docs_impact.suggested_content.map .prSuggestItem)

/-- `ReportGenerator.generate_report` (lines 30-153) as its sequence of
writes: header and summary; when no user-facing PRs, the "No user-facing
changes detected" line and return; otherwise the three union sections
(a section only when its collection is truthy) and the per-PR details. -/
def generate_report (repo_url : List Char) (results : List AnnotatedVerdictRec) :
    List ReportLine :=
  let user_facing_prs := results.filter (·.user_facing)
  let header : List ReportLine :=
    [.title repo_url, .generatedOn, .analyzingSince, .summaryHeader,
     .totalAnalyzed results.length, .userFacingCount user_facing_prs.length]
  if user_facing_prs.isEmpty then header ++ [.noChanges]
  else
    let all_updates := collect_all_updates user_facing_prs
    header ++ [.docsUpdatesHeader] ++
    (if all_updates.update_existing.isEmpty then []
     else .updateExistingHeader :: (py_sorted all_updates.update_existing).map .docItem) ++
    (if all_updates.create_new.isEmpty then []
     else .createNewHeader :: (py_sorted all_updates.create_new).map .docItem) ++
    (if all_updates.suggested_content.isEmpty then []
     else .suggestedHeader ::
       all_updates.suggested_content.map (fun p => .suggestionItem p.1 p.2)) ++
    [.detailHeader] ++ user_facing_prs.flatMap pr_detail_lines

/-- The summary counts of `ReportGenerator.generate_json_report`
(lines 182-189). -/
structure JsonReport where
  total_prs : Nat
  user_facing_prs : Nat
  analysis_results : List AnnotatedVerdictRec
deriving Repr, DecidableEq

/-- `ReportGenerator.generate_json_report` (lines 155-195), summary part. -/
def generate_json_report (results : List AnnotatedVerdictRec) : JsonReport :=
  { total_prs := results.length
    user_facing_prs := (results.filter (·.user_facing)).length
    analysis_results := results }

/-- The tail of `analyze_repository` (src/cli.py 94-116) for the markdown
path: an empty retrieval result is not an error — the report is generated
for the empty list; otherwise each PR is analyzed in order (a failing
analysis would propagate) and the report generated from the results. -/
def pipeline_after_retrieval (repo_url : List Char) (prs : List PRDetails)
    (analyze : PRDetails → Except PyErr AnnotatedVerdictRec) :
    Except PyErr (List ReportLine) :=
  if prs.isEmpty then .ok (generate_report repo_url [])
  else do
    let results ← prs.mapM analyze
    pure (generate_report repo_url results)

/-! ### Claim-side definitions (stated from the spec's words, for
comparison against the embedded source) -/

/-- Modelled from the spec: a value is a string. -/
def is_str_val : PyVal → Bool
  | .str _ => true
  | _ => false

/-- Modelled from the spec: a value is a list of strings. -/
def is_str_list : PyVal → Bool
  | .list xs => xs.all is_str_val
  | _ => false

/-- Modelled from the spec (§3 Verdict): "the validated shape a classifier
response must match" — a dict with a boolean `user_facing`, a `docs_impact`
dict whose `update_existing`, `create_new` and `suggested_content` are
string lists, and a string `reasoning`. -/
def verdict_shape (v : PyVal) : Bool :=
  match v with
  | .dict es =>
    (match List.lookup "user_facing".data es with
     | some (.bool _) => true
     | _ => false) &&
    (match List.lookup "docs_impact".data es with
     | some (.dict ds) =>
       (match List.lookup "update_existing".data ds with
        | some l => is_str_list l
        | _ => false) &&
       (match List.lookup "create_new".data ds with
        | some l => is_str_list l
        | _ => false) &&
       (match List.lookup "suggested_content".data ds with
        | some l => is_str_list l
        | _ => false)
     | _ => false) &&
    (match List.lookup "reasoning".data es with
     | some (.str _) => true
     | _ => false)
  | _ => false

/-- Modelled from the spec (tier-4 salvage, claim side): the trimmed
sentences of a text — split on `". "` — that contain the token
"documentation" case-insensitively, in their original order. -/
def doc_sentences (text : List Char) : List (List Char) :=
  ((splitDotSpace text).filter
    (fun s => containsSub (pyLower s) "documentation".data)).map pyStrip

/-- Proof-side abbreviation: the tier-4 default dict with a given
`suggested_content` string list (so `default_result = defaultWith []`). -/
def defaultWith (xs : List (List Char)) : PyVal :=
  .dict [("user_facing".data, .bool true),
         ("docs_impact".data,
           .dict [("update_existing".data, .list []),
                  ("create_new".data, .list []),
                  ("suggested_content".data, .list (xs.map .str))]),
         ("reasoning".data, .str "Extracted from non-JSON response".data)]

/-! ### Concrete behaviours and records used by witnesses and
counterexamples -/

/-- A `json.loads` behaviour that fails on every input (every tier fails). -/
def loads_none : List Char → Option PyVal := fun _ => Option.none

/-- The real `json.loads` parses the text `"42"` to the integer `42`;
this behaviour records exactly that. -/
def loads_int42 : List Char → Option PyVal :=
  fun s => if s = "42".data then some (.int 42) else Option.none

/-- The real `json.loads` parses `"{}"` to the empty dict; this behaviour
records exactly that. -/
def loads_empty_obj : List Char → Option PyVal :=
  fun s => if s = "\x7b\x7d".data then some (.dict []) else Option.none

/-- A concrete PR detail record. -/
def pr_w : PRDetails :=
  ⟨1, "Add feature".data, "body".data, "https://example/pr/1".data,
   "dev".data, Option.none, "diff".data, []⟩

/-- A GitHub behaviour with two releases (newest first) where every tag
lookup fails. -/
def repo_w : GitHubRepo :=
  ⟨fun _ => .error "404 not found".data, .ok [1000, 500]⟩

/-- A GitHub behaviour with no releases at all, where every tag lookup
fails. -/
def repo_empty_w : GitHubRepo :=
  ⟨fun _ => .error "404 not found".data, .ok []⟩

/-- A concrete user-facing verdict. -/
def verdict_a : AnnotatedVerdictRec :=
  ⟨1, "t1".data, "u1".data, true,
   ⟨["docs/x.md".data, "docs/a.md".data], ["docs/new.md".data], ["a".data]⟩,
   "r1".data⟩

/-- Another concrete user-facing verdict, sharing `docs/x.md`. -/
def verdict_b : AnnotatedVerdictRec :=
  ⟨2, "t2".data, "u2".data, true,
   ⟨["docs/x.md".data], [], ["b".data, "c".data]⟩,
   "r2".data⟩

/-- A concrete boundary datetime on 2023-02-01 with a nonzero
time-of-day. -/
def since_w : PyDateTime := ⟨2023, 2, 1, 15, 30, 45⟩

/-- A PR merged at 2023-02-01T00:00:01. -/
def pr_merged_w : PullRequestRec := ⟨5, true, some ⟨2023, 2, 1, 0, 0, 1⟩⟩

/-- A concrete raw classifier response with no JSON structure. -/
def raw_w : List Char := "The documentation is great. more text.".data

/-- Another concrete raw classifier response with no JSON structure. -/
def raw_w2 : List Char := "plain text reply.".data

/-! ## Helper lemmas -/

/-! ### Set-union folds of the aggregator -/

theorem mem_set_add {s : List (List Char)} {x y : List Char} :
    y ∈ set_add s x ↔ y ∈ s ∨ y = x := by
  unfold set_add
  split_ifs with h
  · constructor
    · exact Or.inl
    · rintro (hy | rfl)
      · exact hy
      · exact h
  · simp [List.mem_append]

theorem nodup_set_add {s : List (List Char)} (x : List Char) (h : s.Nodup) :
    (set_add s x).Nodup := by
  unfold set_add
  split_ifs with hx
  · exact h
  · simp [List.nodup_append, h, hx]

theorem mem_foldl_set_add (l : List (List Char)) :
    ∀ (acc : List (List Char)) (y : List Char),
      y ∈ l.foldl set_add acc ↔ y ∈ acc ∨ y ∈ l := by
  induction l with
  | nil => simp
  | cons a t ih =>
    intro acc y
    rw [List.foldl_cons, ih, mem_set_add]
    simp only [List.mem_cons]
    tauto

theorem nodup_foldl_set_add (l : List (List Char)) :
    ∀ (acc : List (List Char)), acc.Nodup → (l.foldl set_add acc).Nodup := by
  induction l with
  | nil => exact fun _ h => h
  | cons a t ih =>
    intro acc h
    rw [List.foldl_cons]
    exact ih _ (nodup_set_add a h)

theorem mem_foldl_prs (f : AnnotatedVerdictRec → List (List Char))
    (prs : List AnnotatedVerdictRec) :
    ∀ (acc : List (List Char)) (y : List Char),
      y ∈ prs.foldl (fun a pr => (f pr).foldl set_add a) acc ↔
        y ∈ acc ∨ ∃ pr ∈ prs, y ∈ f pr := by
  induction prs with
  | nil => simp
  | cons p t ih =>
    intro acc y
    rw [List.foldl_cons, ih, mem_foldl_set_add]
    simp only [List.mem_cons]
    constructor
    · rintro ((hy | hy) | ⟨pr, hpr, hf⟩)
      · exact Or.inl hy
      · exact Or.inr ⟨p, Or.inl rfl, hy⟩
      · exact Or.inr ⟨pr, Or.inr hpr, hf⟩
    · rintro (hy | ⟨pr, (rfl | hpr), hf⟩)
      · exact Or.inl (Or.inl hy)
      · exact Or.inl (Or.inr hf)
      · exact Or.inr ⟨pr, hpr, hf⟩

theorem nodup_foldl_prs (f : AnnotatedVerdictRec → List (List Char))
    (prs : List AnnotatedVerdictRec) :
    ∀ (acc : List (List Char)), acc.Nodup →
      (prs.foldl (fun a pr => (f pr).foldl set_add a) acc).Nodup := by
  induction prs with
  | nil => exact fun _ h => h
  | cons p t ih =>
    intro acc h
    rw [List.foldl_cons]
    exact ih _ (nodup_foldl_set_add _ _ h)

theorem foldl_append_eq_flatMap {α β : Type} (g : α → List β) (l : List α) :
    ∀ (acc : List β), l.foldl (fun a x => a ++ g x) acc = acc ++ l.flatMap g := by
  induction l with
  | nil => simp
  | cons x t ih =>
    intro acc
    rw [List.foldl_cons, ih]
    simp [List.flatMap_cons, List.append_assoc]

theorem collect_all_updates_fold (prs : List AnnotatedVerdictRec) :
    ∀ (acc : AllUpdates),
      prs.foldl
        (fun acc pr =>
          ({ update_existing := pr.docs_impact.update_existing.foldl set_add acc.update_existing
             create_new := pr.docs_impact.create_new.foldl set_add acc.create_new
             suggested_content := acc.suggested_content ++
               pr.docs_impact.suggested_content.map (fun s => (pr.pr_number, s)) } : AllUpdates))
        acc =
      ⟨prs.foldl (fun a pr => pr.docs_impact.update_existing.foldl set_add a) acc.update_existing,
       prs.foldl (fun a pr => pr.docs_impact.create_new.foldl set_add a) acc.create_new,
       prs.foldl (fun a pr => a ++ pr.docs_impact.suggested_content.map (fun s => (pr.pr_number, s)))
         acc.suggested_content⟩ := by
  induction prs with
  | nil => intro acc; rfl
  | cons p t ih =>
    intro acc
    rw [List.foldl_cons, ih]
    rfl

theorem collect_update_existing (prs : List AnnotatedVerdictRec) :
    (collect_all_updates prs).update_existing =
      prs.foldl (fun a pr => pr.docs_impact.update_existing.foldl set_add a) [] := by
  rw [collect_all_updates, collect_all_updates_fold]

theorem collect_create_new (prs : List AnnotatedVerdictRec) :
    (collect_all_updates prs).create_new =
      prs.foldl (fun a pr => pr.docs_impact.create_new.foldl set_add a) [] := by
  rw [collect_all_updates, collect_all_updates_fold]

theorem collect_suggested (prs : List AnnotatedVerdictRec) :
    (collect_all_updates prs).suggested_content =
      prs.flatMap (fun pr => pr.docs_impact.suggested_content.map (fun s => (pr.pr_number, s))) := by
  rw [collect_all_updates, collect_all_updates_fold]
  exact foldl_append_eq_flatMap _ _ []

/-! ### Sorted enumeration -/

theorem py_sorted_perm (l : List (List Char)) : (py_sorted l).Perm l :=
  List.perm_insertionSort _ l

theorem py_sorted_sorted (l : List (List Char)) :
    List.Sorted (· ≤ ·) (py_sorted l) :=
  List.sorted_insertionSort _ l

theorem py_sorted_nodup {l : List (List Char)} (h : l.Nodup) :
    (py_sorted l).Nodup :=
  (py_sorted_perm l).symm.nodup h

theorem py_sorted_mem {l : List (List Char)} {x : List Char} :
    x ∈ py_sorted l ↔ x ∈ l :=
  (py_sorted_perm l).mem_iff

theorem py_sorted_congr {l₁ l₂ : List (List Char)} (h₁ : l₁.Nodup)
    (h₂ : l₂.Nodup) (hm : ∀ x, x ∈ l₁ ↔ x ∈ l₂) :
    py_sorted l₁ = py_sorted l₂ := by
  have hp : l₁.Perm l₂ :=
    List.perm_of_nodup_nodup_toFinset_eq h₁ h₂
      (Finset.ext fun a => by simp [List.mem_toFinset, hm a])
  exact List.eq_of_perm_of_sorted
    ((py_sorted_perm l₁).trans (hp.trans (py_sorted_perm l₂).symm))
    (py_sorted_sorted l₁) (py_sorted_sorted l₂)

/-! ### Substring search and sentence splitting -/

theorem beginsWith_iff (p : List Char) :
    ∀ (s : List Char), beginsWith p s = true ↔ p <+: s := by
  induction p with
  | nil => intro s; simp [beginsWith, List.nil_prefix]
  | cons a p ih =>
    intro s
    cases s with
    | nil => simp [beginsWith]
    | cons b t =>
      simp [beginsWith, Bool.and_eq_true, beq_iff_eq, ih t, List.cons_prefix_cons]

theorem containsSub_iff (s pat : List Char) :
    containsSub s pat = true ↔ pat <:+: s := by
  induction s with
  | nil =>
    by_cases hb : beginsWith pat [] = true
    · simp only [containsSub, findSub, hb, if_true, Option.isSome_some, true_iff]
      exact ((beginsWith_iff pat []).mp hb).isInfix
    · simp only [containsSub, findSub, hb]
      simp only [Bool.false_eq_true, if_false, Option.isSome_none, false_iff]
      intro hc
      rw [List.infix_nil] at hc
      subst hc
      exact hb ((beginsWith_iff [] []).mpr (List.nil_prefix))
  | cons c t ih =>
    by_cases hb : beginsWith pat (c :: t) = true
    · simp only [containsSub, findSub, hb, if_true, Option.isSome_some, true_iff]
      exact ((beginsWith_iff pat _).mp hb).isInfix
    · simp only [containsSub, findSub, hb, Bool.false_eq_true, if_false,
        Option.isSome_map']
      unfold containsSub at ih
      rw [ih, List.infix_cons_iff]
      constructor
      · exact Or.inr
      · rintro (hp | hi)
        · exact absurd ((beginsWith_iff pat _).mpr hp) hb
        · exact hi

theorem splitDotSpace_head_tail :
    ∀ (l : List Char), ∃ s ss, splitDotSpace l = s :: ss ∧ s <+: l ∧
      ∀ p ∈ ss, p <:+: l := by
  intro l
  induction l using splitDotSpace.induct with
  | case1 =>
    exact ⟨[], [], rfl, List.nil_prefix, by simp⟩
  | case2 rest ih =>
    obtain ⟨s, ss, heq, hp, hss⟩ := ih
    refine ⟨[], s :: ss, by simp [splitDotSpace, heq], List.nil_prefix, ?_⟩
    intro p hp'
    rcases List.mem_cons.mp hp' with rfl | hmem
    · exact List.infix_cons (List.infix_cons hp.isInfix)
    · exact List.infix_cons (List.infix_cons (hss p hmem))
  | case3 c rest hshape hnil ih =>
    obtain ⟨s, ss, heq, hp, hss⟩ := ih
    rw [heq] at hnil
    exact absurd hnil (by simp)
  | case4 c rest hshape s ss heq ih =>
    obtain ⟨s2, ss2, heq2, hp, hss⟩ := ih
    rw [heq] at heq2
    injection heq2 with hs hss'
    subst hs
    subst hss'
    have hsplit : splitDotSpace (c :: rest) = (c :: s) :: ss := by
      rw [splitDotSpace.eq_def]
      split
      · rename_i hcontra
        exact absurd hcontra (by simp)
      · rename_i rest1 hmatch
        injection hmatch with hc hrest
        exact (hshape rest1 hc hrest).elim
      · rename_i c2 rest2 hsh2 hmatch
        injection hmatch with hc hrest
        subst hc
        subst hrest
        rw [heq]
    refine ⟨c :: s, ss, hsplit, List.cons_prefix_cons.mpr ⟨rfl, hp⟩, ?_⟩
    intro p hmem
    exact List.infix_cons (hss p hmem)

theorem splitDotSpace_piece_within {l p : List Char} (h : p ∈ splitDotSpace l) :
    p <:+: l := by
  obtain ⟨s, ss, heq, hp, hss⟩ := splitDotSpace_head_tail l
  rw [heq] at h
  rcases List.mem_cons.mp h with rfl | hmem
  · exact hp.isInfix
  · exact hss p hmem

theorem no_doc_in_sentence {content s : List Char}
    (hmem : s ∈ splitDotSpace content)
    (hnc : containsSub (pyLower content) "documentation".data ≠ true) :
    containsSub (pyLower s) "documentation".data ≠ true := by
  intro hc
  apply hnc
  rw [containsSub_iff] at hc ⊢
  exact hc.trans (List.IsInfix.map Char.toLower (splitDotSpace_piece_within hmem))

/-! ### The tier-4 default and the salvage scan -/

theorem default_result_eq_defaultWith : default_result = defaultWith [] := rfl

theorem defaultWith_user_facing (xs : List (List Char)) :
    pyGetItem (defaultWith xs) "user_facing".data = .ok (.bool true) := rfl

theorem defaultWith_reasoning (xs : List (List Char)) :
    pyGetItem (defaultWith xs) "reasoning".data =
      .ok (.str "Extracted from non-JSON response".data) := rfl

theorem defaultWith_update_existing (xs : List (List Char)) :
    (pyGetItem (defaultWith xs) "docs_impact".data).bind
      (fun di => pyGetItem di "update_existing".data) = .ok (.list []) := rfl

theorem defaultWith_create_new (xs : List (List Char)) :
    (pyGetItem (defaultWith xs) "docs_impact".data).bind
      (fun di => pyGetItem di "create_new".data) = .ok (.list []) := rfl

theorem defaultWith_suggested (xs : List (List Char)) :
    (pyGetItem (defaultWith xs) "docs_impact".data).bind
      (fun di => pyGetItem di "suggested_content".data) =
      .ok (.list (xs.map .str)) := rfl

theorem salvage_sentence_defaultWith (xs : List (List Char)) (s : List Char) :
    salvage_sentence (defaultWith xs) s =
      .ok (defaultWith (if containsSub (pyLower s) "documentation".data
        then xs ++ [pyStrip s] else xs)) := by
  by_cases h : containsSub (pyLower s) "documentation".data = true
  · rw [salvage_sentence, if_pos h, if_pos h]
    show Except.ok (PyVal.dict _) = _
    simp only [defaultWith, List.map_append, List.map_cons, List.map_nil]
    rfl
  · rw [salvage_sentence, if_neg h, if_neg h]
    rfl

theorem foldlM_salvage_sentence (sentences : List (List Char)) :
    ∀ (xs : List (List Char)),
      sentences.foldlM salvage_sentence (defaultWith xs) =
        .ok (defaultWith (xs ++ (sentences.filter
          (fun s => containsSub (pyLower s) "documentation".data)).map pyStrip)) := by
  induction sentences with
  | nil =>
    intro xs
    show Except.ok (defaultWith xs) = _
    rw [List.filter_nil, List.map_nil, List.append_nil]
  | cons s t ih =>
    intro xs
    rw [List.foldlM_cons, salvage_sentence_defaultWith]
    by_cases h : containsSub (pyLower s) "documentation".data = true
    · rw [if_pos h]
      show t.foldlM salvage_sentence (defaultWith (xs ++ [pyStrip s])) = _
      rw [ih, List.filter_cons, if_pos h]
      simp [List.append_assoc]
    · rw [if_neg h]
      show t.foldlM salvage_sentence (defaultWith xs) = _
      rw [ih, List.filter_cons, if_neg h]

theorem salvage_scan_default (content : List Char) :
    salvage_scan content default_result =
      .ok (defaultWith (((splitDotSpace content).filter
        (fun s => containsSub (pyLower s) "documentation".data)).map pyStrip)) := by
  have h0 : salvage_scan content default_result =
      (if containsSub (pyLower content) "documentation".data then
        (splitDotSpace content).foldlM salvage_sentence default_result
      else pure default_result) := rfl
  rw [h0]
  by_cases h : containsSub (pyLower content) "documentation".data = true
  · rw [if_pos h, default_result_eq_defaultWith, foldlM_salvage_sentence]
    rfl
  · rw [if_neg h]
    have hfil : (splitDotSpace content).filter
        (fun s => containsSub (pyLower s) "documentation".data) = [] := by
      rw [List.filter_eq_nil_iff]
      intro s hs
      simpa using no_doc_in_sentence hs h
    rw [hfil]
    rfl

theorem tier_parse_all_fail {loads : List Char → Option PyVal} {content : List Char}
    (h1 : loads content = Option.none)
    (h2 : ∀ c, fenced_candidate content = some c → loads c = Option.none)
    (h3 : ∀ c, brace_candidate content = some c → loads c = Option.none) :
    tier_parse loads content = default_result := by
  have hbr : brace_parse loads content = default_result := by
    unfold brace_parse
    cases hb : brace_candidate content with
    | none => rfl
    | some c =>
      show (loads c).getD default_result = default_result
      rw [h3 c hb]
      rfl
  unfold tier_parse
  rw [h1]
  cases hf : fenced_candidate content with
  | none => exact hbr
  | some c =>
    show (match loads c with
          | some r => r
          | Option.none => brace_parse loads content) = default_result
    rw [h2 c hf]
    exact hbr

theorem parse_openai_response_all_fail {loads : List Char → Option PyVal}
    {raw : List Char}
    (h1 : loads (pyStrip raw) = Option.none)
    (h2 : ∀ c, fenced_candidate (pyStrip raw) = some c → loads c = Option.none)
    (h3 : ∀ c, brace_candidate (pyStrip raw) = some c → loads c = Option.none) :
    parse_openai_response loads raw =
      .ok (defaultWith (((splitDotSpace (pyStrip raw)).filter
        (fun s => containsSub (pyLower s) "documentation".data)).map pyStrip)) := by
  show salvage_scan (pyStrip raw) (tier_parse loads (pyStrip raw)) = _
  rw [tier_parse_all_fail h1 h2 h3, salvage_scan_default]

theorem verdict_shape_defaultWith (xs : List (List Char)) :
    verdict_shape (defaultWith xs) = true := by
  have hall : (xs.map PyVal.str).all is_str_val = true := by
    rw [List.all_eq_true]
    intro x hx
    obtain ⟨s, _, rfl⟩ := List.mem_map.mp hx
    rfl
  show (true && ((true && true && is_str_list (.list (xs.map .str))) && true)) = true
  simp only [is_str_list, hall, Bool.and_true, Bool.true_and]

/-! ## Claim theorems -/

/-- C3: for every environment configuration (i.e. every tuple of values the
environment can put into the config dict), constructing the classification
client fails with `KeyError` on `"base_url"` — `get_openai_config` returns
only the keys `api_key`, `model`, `max_tokens` and `temperature`, and the
lookup `config["base_url"]` happens while evaluating the `OpenAI(...)`
arguments, before any network-capable object exists — so the
classification stage can never be instantiated. -/
theorem c3_init_always_keyerror (api_key model_value max_tokens temperature : PyVal) :
    openai_analyzer_init
        (get_openai_config api_key model_value max_tokens temperature) =
      .error (.keyError "base_url".data) := rfl

/-- C9: with `rate_limit_per_minute = 2` and three calls issued with no
elapsed time between them (all clock readings equal to `t`, starting from
the `__init__` state `(0, 0)`), the first two calls sleep `0`, the third
sleeps exactly the remaining window `60 - (t - t) = 60` seconds and its
counter is reset before being incremented (it ends at `1`, not `3`); and
every call of the limiter, waiting or not, stamps the exit-time reading
and sets the counter to either old-count-plus-one or (after a reset)
one. -/
theorem c9_rate_limiter_scenario (t t3_out : ℚ) :
    (rate_limit_step 2 ⟨0, 0⟩ t t).1 = 0 ∧
    (rate_limit_step 2 ⟨0, 0⟩ t t).2 = ⟨1, t⟩ ∧
    (rate_limit_step 2 ⟨1, t⟩ t t).1 = 0 ∧
    (rate_limit_step 2 ⟨1, t⟩ t t).2 = ⟨2, t⟩ ∧
    (rate_limit_step 2 ⟨2, t⟩ t t3_out).1 = 60 ∧
    60 - (t - t) ≤ (rate_limit_step 2 ⟨2, t⟩ t t3_out).1 ∧
    (rate_limit_step 2 ⟨2, t⟩ t t3_out).2 = ⟨1, t3_out⟩ ∧
    (∀ (limit : Nat) (st : RateLimiterState) (a b : ℚ),
      (rate_limit_step limit st a b).2.last_request_time = b ∧
      ((rate_limit_step limit st a b).2.request_count = st.request_count + 1 ∨
       (rate_limit_step limit st a b).2.request_count = 1)) := by
  have h1 : rate_limit_step 2 ⟨0, 0⟩ t t = (0, ⟨1, t⟩) := by
    unfold rate_limit_step
    dsimp only
    split_ifs with ha hb
    · exact absurd ha.2 (by norm_num)
    · rfl
    · rfl
  have h2 : rate_limit_step 2 ⟨1, t⟩ t t = (0, ⟨2, t⟩) := by
    unfold rate_limit_step
    dsimp only
    split_ifs with ha hb
    · exact absurd ha.2 (by norm_num)
    · rw [sub_self] at hb; exact absurd hb (by norm_num)
    · rfl
  have h3 : rate_limit_step 2 ⟨2, t⟩ t t3_out = (60 - (t - t), ⟨1, t3_out⟩) := by
    unfold rate_limit_step
    dsimp only
    split_ifs with ha hb
    · rfl
    · exact absurd ⟨by rw [sub_self]; norm_num, le_refl 2⟩ ha
    · exact absurd ⟨by rw [sub_self]; norm_num, le_refl 2⟩ ha
  refine ⟨by rw [h1], by rw [h1], by rw [h2], by rw [h2],
    by rw [h3]; rw [sub_self, sub_zero], by rw [h3],
    by rw [h3], ?_⟩
  intro limit st a b
  unfold rate_limit_step
  dsimp only
  split_ifs <;> first
    | exact ⟨rfl, Or.inr rfl⟩
    | exact ⟨rfl, Or.inl rfl⟩

/-- C4: boundary resolution follows the four-tier precedence: an explicit
date is used verbatim (for every repo behaviour, so no release lookup can
influence it); with a release tag whose lookup raises, the failure is
non-fatal and the latest release's creation time is used; with no tag the
latest release's creation time is used; and when no releases exist at all
(with or without a failing tag), the boundary is now minus 30 days
(2592000 seconds). -/
theorem c4_boundary_resolution (repo : GitHubRepo) (now : Int) :
    (∀ (d : Int) (tag : Option (List Char)),
      resolve_since (some d) tag repo now = d) ∧
    (∀ (t msg : List Char) (d : Int) (rest : List Int),
      repo.get_release t = .error msg → repo.get_releases = .ok (d :: rest) →
      resolve_since Option.none (some t) repo now = d) ∧
    (∀ (d : Int) (rest : List Int), repo.get_releases = .ok (d :: rest) →
      resolve_since Option.none Option.none repo now = d) ∧
    (repo.get_releases = .ok [] →
      resolve_since Option.none Option.none repo now = now - 30 * 86400 ∧
      (∀ (t msg : List Char), repo.get_release t = .error msg →
        resolve_since Option.none (some t) repo now = now - 30 * 86400)) := by
  refine ⟨fun d tag => rfl, ?_, ?_, ?_⟩
  · intro t msg d rest h1 h2
    simp [resolve_since, get_release_date, h1, h2]
  · intro d rest h2
    simp [resolve_since, get_release_date, h2]
  · intro h
    refine ⟨by simp [resolve_since, get_release_date, h], ?_⟩
    intro t msg h1
    simp [resolve_since, get_release_date, h, h1]

/-- C4 witness: at concrete behaviours — two releases `[1000, 500]` with
failing tag lookups, and a release-less repo — each tier of
`c4_boundary_resolution` evaluates as claimed. -/
theorem c4_boundary_resolution_witness :
    resolve_since (some 77) (some "v1".data) repo_w 5000 = 77 ∧
    resolve_since Option.none (some "v9".data) repo_w 5000 = 1000 ∧
    resolve_since Option.none Option.none repo_w 5000 = 1000 ∧
    resolve_since Option.none Option.none repo_empty_w 5000 = 5000 - 30 * 86400 ∧
    resolve_since Option.none (some "v9".data) repo_empty_w 5000 = 5000 - 30 * 86400 :=
  ⟨(c4_boundary_resolution repo_w 5000).1 77 (some "v1".data),
   (c4_boundary_resolution repo_w 5000).2.1 "v9".data "404 not found".data 1000 [500] rfl rfl,
   (c4_boundary_resolution repo_w 5000).2.2.1 1000 [500] rfl,
   ((c4_boundary_resolution repo_empty_w 5000).2.2.2 rfl).1,
   ((c4_boundary_resolution repo_empty_w 5000).2.2.2 rfl).2 "v9".data
     "404 not found".data rfl⟩

/-- C7: for every result list, of any length including zero, the total
count written into both reports is the length of the input, and the
user-facing count is the number of items whose `user_facing` field is
true. -/
theorem c7_report_counts (repo_url : List Char) (results : List AnnotatedVerdictRec) :
    (generate_json_report results).total_prs = results.length ∧
    (generate_json_report results).user_facing_prs =
      results.countP (·.user_facing) ∧
    ReportLine.totalAnalyzed results.length ∈ generate_report repo_url results ∧
    ReportLine.userFacingCount (results.countP (·.user_facing)) ∈
      generate_report repo_url results := by
  have hc : results.countP (·.user_facing) =
      (results.filter (·.user_facing)).length :=
    List.countP_eq_length_filter _ _
  refine ⟨rfl, hc.symm ▸ rfl, ?_, ?_⟩
  · unfold generate_report
    dsimp only
    split_ifs <;> simp
  · rw [hc]
    unfold generate_report
    dsimp only
    split_ifs <;> simp

/-- C10: when retrieval returns zero change-sets the pipeline does not
abort: it returns (not raises) the report of the empty list, which carries
total count 0, user-facing count 0, and the explicit
no-user-facing-changes marker line. -/
theorem c10_empty_retrieval (repo_url : List Char)
    (analyze : PRDetails → Except PyErr AnnotatedVerdictRec) :
    pipeline_after_retrieval repo_url [] analyze =
      .ok (generate_report repo_url []) ∧
    ReportLine.totalAnalyzed 0 ∈ generate_report repo_url [] ∧
    ReportLine.userFacingCount 0 ∈ generate_report repo_url [] ∧
    ReportLine.noChanges ∈ generate_report repo_url [] := by
  refine ⟨rfl, ?_, ?_, ?_⟩ <;> simp [generate_report]

/-- C8: the merged-change listing compares calendar dates only: for a PR
with a merge timestamp `m`, inclusion is exactly `merged &&
since.date() <= m.date()` (time-of-day of both sides dropped), and in
particular a change merged at 2023-02-01T00:00:01 is included — and
returned by the listing — whenever the boundary's date is 2023-02-01,
whatever its time of day. -/
theorem c8_date_only_comparison (since : PyDateTime) (pr : PullRequestRec) :
    (∀ m : PyDateTime, pr.merged_at = some m →
      pr_included since pr = (pr.merged && PyDate.leb since.date m.date)) ∧
    (since.date = ⟨2023, 2, 1⟩ → pr.merged = true →
      pr.merged_at = some ⟨2023, 2, 1, 0, 0, 1⟩ →
      pr_included since pr = true ∧
      get_prs_since_date [pr] since = [pr]) := by
  constructor
  · intro m hm
    unfold pr_included
    rw [hm]
  · intro hd hm hma
    have hinc : pr_included since pr = true := by
      unfold pr_included
      rw [hma, hm, hd]
      rfl
    refine ⟨hinc, ?_⟩
    simp [get_prs_since_date, collect_prs, hinc]

/-- C8 witness: the boundary 2023-02-01T15:30:45 (nonzero time of day)
includes the PR merged at 2023-02-01T00:00:01. -/
theorem c8_date_only_comparison_witness :
    pr_included since_w pr_merged_w = true ∧
    get_prs_since_date [pr_merged_w] since_w = [pr_merged_w] :=
  (c8_date_only_comparison since_w pr_merged_w).2 rfl rfl rfl

/-- C6: the union collections enumerate each path at most once (`Nodup`),
in lexicographically sorted order; their membership is exactly "mentioned
by some user-facing item"; they are invariant under permuting the arrival
order; and the suggestions list is exactly the arrival-order flattening of
each user-facing item's `suggested_content`, each entry paired with its
item's change number — no deduplication, no sorting. -/
theorem c6_aggregation (results : List AnnotatedVerdictRec) :
    (report_update_existing results).Nodup ∧
    List.Sorted (· ≤ ·) (report_update_existing results) ∧
    (∀ x, x ∈ report_update_existing results ↔
      ∃ pr ∈ results.filter (·.user_facing), x ∈ pr.docs_impact.update_existing) ∧
    (report_create_new results).Nodup ∧
    List.Sorted (· ≤ ·) (report_create_new results) ∧
    (∀ x, x ∈ report_create_new results ↔
      ∃ pr ∈ results.filter (·.user_facing), x ∈ pr.docs_impact.create_new) ∧
    (∀ results', results.Perm results' →
      report_update_existing results = report_update_existing results' ∧
      report_create_new results = report_create_new results') ∧
    report_suggestions results =
      (results.filter (·.user_facing)).flatMap
        (fun pr => pr.docs_impact.suggested_content.map (fun s => (pr.pr_number, s))) := by
  have hue_mem : ∀ (l : List AnnotatedVerdictRec) (x : List Char),
      x ∈ (collect_all_updates l).update_existing ↔
        ∃ pr ∈ l, x ∈ pr.docs_impact.update_existing := by
    intro l x
    rw [collect_update_existing, mem_foldl_prs]
    simp
  have hcn_mem : ∀ (l : List AnnotatedVerdictRec) (x : List Char),
      x ∈ (collect_all_updates l).create_new ↔
        ∃ pr ∈ l, x ∈ pr.docs_impact.create_new := by
    intro l x
    rw [collect_create_new, mem_foldl_prs]
    simp
  have hue_nd : ∀ (l : List AnnotatedVerdictRec),
      (collect_all_updates l).update_existing.Nodup := by
    intro l
    rw [collect_update_existing]
    exact nodup_foldl_prs _ _ _ List.nodup_nil
  have hcn_nd : ∀ (l : List AnnotatedVerdictRec),
      (collect_all_updates l).create_new.Nodup := by
    intro l
    rw [collect_create_new]
    exact nodup_foldl_prs _ _ _ List.nodup_nil
  refine ⟨py_sorted_nodup (hue_nd _), py_sorted_sorted _,
    fun x => py_sorted_mem.trans (hue_mem _ x),
    py_sorted_nodup (hcn_nd _), py_sorted_sorted _,
    fun x => py_sorted_mem.trans (hcn_mem _ x), ?_, collect_suggested _⟩
  intro results' hperm
  have hfp : (results.filter (·.user_facing)).Perm
      (results'.filter (·.user_facing)) := hperm.filter _
  constructor
  · apply py_sorted_congr (hue_nd _) (hue_nd _)
    intro x
    rw [hue_mem, hue_mem]
    constructor
    · rintro ⟨pr, hp, hx⟩
      exact ⟨pr, hfp.mem_iff.mp hp, hx⟩
    · rintro ⟨pr, hp, hx⟩
      exact ⟨pr, hfp.mem_iff.mpr hp, hx⟩
  · apply py_sorted_congr (hcn_nd _) (hcn_nd _)
    intro x
    rw [hcn_mem, hcn_mem]
    constructor
    · rintro ⟨pr, hp, hx⟩
      exact ⟨pr, hfp.mem_iff.mp hp, hx⟩
    · rintro ⟨pr, hp, hx⟩
      exact ⟨pr, hfp.mem_iff.mpr hp, hx⟩

/-- C6 witness: two concrete user-facing verdicts sharing the path
`docs/x.md`, aggregated in either arrival order, give identical sorted
union enumerations. -/
theorem c6_aggregation_witness :
    report_update_existing [verdict_a, verdict_b] =
      report_update_existing [verdict_b, verdict_a] ∧
    report_create_new [verdict_a, verdict_b] =
      report_create_new [verdict_b, verdict_a] :=
  (c6_aggregation [verdict_a, verdict_b]).2.2.2.2.2.2.1
    [verdict_b, verdict_a] (List.Perm.swap verdict_b verdict_a [])

/-- C2 counterexample: the real `json.loads` parses `"42"` to the integer
`42`, on which the salvage scan's `"reasoning" in result` raises
`TypeError` — the parser DOES raise; and it parses `"{}"` to the empty
dict, which the parser returns raw even though it is not of the validated
Verdict shape. -/
theorem c2_counterexample :
    parse_openai_response loads_int42 "42".data =
      .error (.typeError "argument of type is not iterable".data) ∧
    parse_openai_response loads_empty_obj "\x7b\x7d".data = .ok (.dict []) ∧
    verdict_shape (.dict []) = false :=
  ⟨rfl, rfl, rfl⟩

/-- C2 (amended): on every input string on which all three parse tiers
fail, the response recovery parser returns without raising and its result
has the validated Verdict shape (boolean `user_facing`, the three string
lists, string `reasoning`); inputs on which a tier succeeds are returned
unvalidated and may make the parser raise (see the counterexample). -/
theorem c2_all_tiers_fail_validated (loads : List Char → Option PyVal)
    (raw : List Char)
    (h1 : loads (pyStrip raw) = Option.none)
    (h2 : ∀ c, fenced_candidate (pyStrip raw) = some c → loads c = Option.none)
    (h3 : ∀ c, brace_candidate (pyStrip raw) = some c → loads c = Option.none) :
    ∃ v, parse_openai_response loads raw = .ok v ∧ verdict_shape v = true :=
  ⟨_, parse_openai_response_all_fail h1 h2 h3, verdict_shape_defaultWith _⟩

/-- C2 witness: the Verdict-shaped degraded default at a concrete
unparseable input. -/
theorem c2_all_tiers_fail_validated_witness :
    ∃ v, parse_openai_response loads_none raw_w2 = .ok v ∧
      verdict_shape v = true :=
  c2_all_tiers_fail_validated loads_none raw_w2 rfl
    (fun _ _ => rfl) (fun _ _ => rfl)

/-- C5 counterexample: on the input `"documentation. "` (with all tiers
failing, as for the real `json.loads`), the code salvages from the
STRIPPED text and appends `"documentation."`, while the claim's sentence
list over the input itself is `["documentation"]` — the two differ. -/
theorem c5_counterexample :
    (parse_openai_response loads_none "documentation. ".data).bind
        (fun v => (pyGetItem v "docs_impact".data).bind
          (fun di => pyGetItem di "suggested_content".data)) =
      Except.ok (PyVal.list [PyVal.str "documentation.".data]) ∧
    doc_sentences "documentation. ".data = ["documentation".data] ∧
    PyVal.list [PyVal.str "documentation.".data] ≠
      PyVal.list ((doc_sentences "documentation. ".data).map PyVal.str) := by
  have h2 : doc_sentences "documentation. ".data = ["documentation".data] := by
    decide
  refine ⟨rfl, h2, ?_⟩
  intro h
  rw [h2] at h
  injection h with h'
  injection h' with hhead _
  injection hhead with h3
  exact absurd h3 (by decide)

/-- C5 (amended): on every input on which all three parse tiers fail, the
parser returns (without raising) the degraded Verdict with
`user_facing = true`, empty `update_existing` and `create_new`,
`reasoning = "Extracted from non-JSON response"`, and `suggested_content`
containing exactly the trimmed `". "`-split sentences of the
whitespace-STRIPPED input that contain "documentation" case-insensitively,
in their original order. -/
theorem c5_tier4_salvage (loads : List Char → Option PyVal) (raw : List Char)
    (h1 : loads (pyStrip raw) = Option.none)
    (h2 : ∀ c, fenced_candidate (pyStrip raw) = some c → loads c = Option.none)
    (h3 : ∀ c, brace_candidate (pyStrip raw) = some c → loads c = Option.none) :
    ∃ v, parse_openai_response loads raw = .ok v ∧
      pyGetItem v "user_facing".data = .ok (.bool true) ∧
      (pyGetItem v "docs_impact".data).bind
        (fun di => pyGetItem di "update_existing".data) = .ok (.list []) ∧
      (pyGetItem v "docs_impact".data).bind
        (fun di => pyGetItem di "create_new".data) = .ok (.list []) ∧
      pyGetItem v "reasoning".data =
        .ok (.str "Extracted from non-JSON response".data) ∧
      (pyGetItem v "docs_impact".data).bind
        (fun di => pyGetItem di "suggested_content".data) =
        .ok (.list ((doc_sentences (pyStrip raw)).map .str)) :=
  ⟨_, parse_openai_response_all_fail h1 h2 h3,
    defaultWith_user_facing _, defaultWith_update_existing _,
    defaultWith_create_new _, defaultWith_reasoning _, defaultWith_suggested _⟩

/-- C5 witness: the degraded default with the salvaged sentence at a
concrete unparseable input mentioning "documentation". -/
theorem c5_tier4_salvage_witness :
    ∃ v, parse_openai_response loads_none raw_w = .ok v ∧
      pyGetItem v "user_facing".data = .ok (.bool true) ∧
      (pyGetItem v "docs_impact".data).bind
        (fun di => pyGetItem di "update_existing".data) = .ok (.list []) ∧
      (pyGetItem v "docs_impact".data).bind
        (fun di => pyGetItem di "create_new".data) = .ok (.list []) ∧
      pyGetItem v "reasoning".data =
        .ok (.str "Extracted from non-JSON response".data) ∧
      (pyGetItem v "docs_impact".data).bind
        (fun di => pyGetItem di "suggested_content".data) =
        .ok (.list ((doc_sentences (pyStrip raw_w)).map .str)) :=
  c5_tier4_salvage loads_none raw_w rfl (fun _ _ => rfl) (fun _ _ => rfl)

/-- C1 counterexample: an exception raised by the rate limiter (step 1,
outside the `try:` of line 270) propagates out of `analyze_pr` — so
`analyze_pr` is NOT exception-free over every behaviour of the rate
limiter. -/
theorem c1_counterexample :
    analyze_pr (.error (.other "rate limiter failure".data)) (.ok "x".data)
        loads_none pr_w =
      .error (.other "rate limiter failure".data) := rfl

/-- C1 (amended): provided the rate-limiter call returns (its exceptions —
step 1 — escape, see the counterexample), `analyze_pr` never raises; and
whenever the `try:` body (classifier invocation, response parsing,
metadata attachment) raises `e`, the result is the error dict with
`user_facing = false`, the three `docs_impact` lists empty, `reasoning =
"Error: " ++ str(e)` and `error = str(e)`. -/
theorem c1_try_block_failures_captured (resp : Except PyErr (List Char))
    (loads : List Char → Option PyVal) (pr : PRDetails) :
    (∃ v, analyze_pr (.ok ()) resp loads pr = .ok v) ∧
    (∀ e, analyze_pr_body resp loads pr = .error e →
      analyze_pr (.ok ()) resp loads pr = .ok (error_result pr e.message) ∧
      pyGetItem (error_result pr e.message) "user_facing".data =
        .ok (.bool false) ∧
      (pyGetItem (error_result pr e.message) "docs_impact".data).bind
        (fun di => pyGetItem di "update_existing".data) = .ok (.list []) ∧
      (pyGetItem (error_result pr e.message) "docs_impact".data).bind
        (fun di => pyGetItem di "create_new".data) = .ok (.list []) ∧
      (pyGetItem (error_result pr e.message) "docs_impact".data).bind
        (fun di => pyGetItem di "suggested_content".data) = .ok (.list []) ∧
      pyGetItem (error_result pr e.message) "reasoning".data =
        .ok (.str ("Error: ".data ++ e.message)) ∧
      pyGetItem (error_result pr e.message) "error".data =
        .ok (.str e.message)) := by
  have hred : analyze_pr (.ok ()) resp loads pr =
      (match analyze_pr_body resp loads pr with
       | .ok v => .ok v
       | .error e => .ok (error_result pr e.message)) := rfl
  cases hb : analyze_pr_body resp loads pr with
  | ok v =>
    refine ⟨⟨v, by rw [hred, hb]⟩, ?_⟩
    intro e he
    exact Except.noConfusion he
  | error e0 =>
    refine ⟨⟨error_result pr e0.message, by rw [hred, hb]⟩, ?_⟩
    intro e he
    injection he with h'
    subst h'
    exact ⟨by rw [hred, hb], rfl, rfl, rfl, rfl, rfl, rfl⟩

/-- C1 witness: a transport failure of the external classifier at a
concrete PR is captured into the error dict with all the claimed fields. -/
theorem c1_try_block_failures_captured_witness :
    analyze_pr (.ok ()) (.error (.other "API error".data)) loads_none pr_w =
      .ok (error_result pr_w "API error".data) ∧
    pyGetItem (error_result pr_w "API error".data) "user_facing".data =
      .ok (.bool false) ∧
    (pyGetItem (error_result pr_w "API error".data) "docs_impact".data).bind
      (fun di => pyGetItem di "update_existing".data) = .ok (.list []) ∧
    (pyGetItem (error_result pr_w "API error".data) "docs_impact".data).bind
      (fun di => pyGetItem di "create_new".data) = .ok (.list []) ∧
    (pyGetItem (error_result pr_w "API error".data) "docs_impact".data).bind
      (fun di => pyGetItem di "suggested_content".data) = .ok (.list []) ∧
    pyGetItem (error_result pr_w "API error".data) "reasoning".data =
      .ok (.str ("Error: ".data ++ "API error".data)) ∧
    pyGetItem (error_result pr_w "API error".data) "error".data =
      .ok (.str "API error".data) :=
  (c1_try_block_failures_captured (.error (.other "API error".data))
    loads_none pr_w).2 (.other "API error".data) rfl

end DocuPR
